import Mathlib

/-!
Verification of the codelist-tools validation core.

This file embeds, in Lean, the OPCS code validator of
`codelist-validator-rs/src/opcs_validator.rs` and the contributor
bookkeeping of `codelist-rs/src/metadata/provenance.rs`, and proves the
behavioural properties stated about them.

Modelling decisions, mirroring the Rust source:
* Rust `str::len()` is the UTF-8 byte length, embedded as
  `String.utf8ByteSize` (never the character count).
* The validator's pattern is the regex `^[A-Z]\d{2}(\.\d{1,2}|\d{1,2})?$`
  from the `regex` crate with its default Unicode mode, in which `[A-Z]`
  is the ASCII range while `\d` denotes the Unicode general category Nd
  (decimal digit number), not only ASCII `0-9`. The embedding therefore
  carries the Unicode 15.0 table of Nd ranges (every Nd run is a block of
  ten consecutive code points, digit zero through nine of one script).
* Rust `Result<(), E>` becomes `Except E Unit`; an in-place mutation of a
  struct becomes a function returning the result paired with the new value.
-/

/-- Start code points of the Unicode 15.0 `Nd` (decimal digit) runs; each
run is exactly ten consecutive code points. This is the character class
that the `regex` crate's `\d` matches in its default Unicode mode. -/
def ndStarts : List Nat :=
  [0x30, 0x660, 0x6F0, 0x7C0, 0x966, 0x9E6, 0xA66, 0xAE6, 0xB66, 0xBE6,
   0xC66, 0xCE6, 0xD66, 0xDE6, 0xE50, 0xED0, 0xF20, 0x1040, 0x1090, 0x17E0,
   0x1810, 0x1946, 0x19D0, 0x1A80, 0x1A90, 0x1B50, 0x1BB0, 0x1C40, 0x1C50,
   0xA620, 0xA8D0, 0xA900, 0xA9D0, 0xA9F0, 0xAA50, 0xABF0, 0xFF10,
   0x104A0, 0x10D30, 0x11066, 0x110F0, 0x11136, 0x111D0, 0x112F0, 0x11450,
   0x114D0, 0x11650, 0x116C0, 0x11730, 0x118E0, 0x11950, 0x11C50, 0x11D50,
   0x11DA0, 0x11F50, 0x16A60, 0x16AC0, 0x16B50,
   0x1D7CE, 0x1D7D8, 0x1D7E2, 0x1D7EC, 0x1D7F6,
   0x1E140, 0x1E2F0, 0x1E4F0, 0x1E950, 0x1FBF0]

/-- `\d` of the source regex: membership in the Unicode `Nd` category. -/
def isNd (c : Char) : Bool :=
  ndStarts.any (fun s => decide (s ≤ c.toNat) && decide (c.toNat < s + 10))

/-- `[A-Z]` of the source regex: the ASCII upper-case range. -/
def isUpperAZ (c : Char) : Bool :=
  decide ('A'.toNat ≤ c.toNat) && decide (c.toNat ≤ 'Z'.toNat)

/-- The optional tail group `(\.\d{1,2}|\d{1,2})?$` of the source regex,
applied to the characters after the leading letter and two digits. -/
def matchTail : List Char → Bool
  | [] => true
  | ['.', d] => isNd d
  | ['.', d1, d2] => isNd d1 && isNd d2
  | [d] => isNd d
  | [d1, d2] => isNd d1 && isNd d2
  | _ => false

/-- The source regex `^[A-Z]\d{2}(\.\d{1,2}|\d{1,2})?$` as a whole-string
matcher (`Regex::is_match` with both anchors is a full match). -/
def matchesOPCSRegex (code : String) : Bool :=
  match code.data with
  | c0 :: c1 :: c2 :: rest => isUpperAZ c0 && isNd c1 && isNd c2 && matchTail rest
  | _ => false

/-- The validator error enum `CodeListValidatorError` of
`codelist-validator-rs`. Its defining file is not part of the provided
sources; the variants and fields are as used by `opcs_validator.rs` and
its tests: two per-code failures carrying the code and a reason, and one
aggregate failure carrying the ordered `(code, reason)` pairs. -/
inductive CodeListValidatorError where
  | invalidCodeLength (code : String) (reason : String)
  | invalidCodeContents (code : String) (reason : String)
  | invalidCodelist (reasons : List (String × String))
deriving DecidableEq

/-- Modelled from the spec: the stable human-readable rendering
(`Display`) of `CodeListValidatorError`, whose defining file is not in the
provided sources. The per-code wordings are fixed by the test assertions
(`"Code A0 is an invalid length"`, `"Code 101 contents is invalid"`, each
followed by the stored reason); the aggregate rendering concatenates its
pair list. -/
def display : CodeListValidatorError → String
  | .invalidCodeLength code reason =>
      "Code " ++ (code ++ (" is an invalid length. Reason: " ++ reason))
  | .invalidCodeContents code reason =>
      "Code " ++ (code ++ (" contents is invalid. Reason: " ++ reason))
  | .invalidCodelist reasons =>
      "Invalid codelist: " ++
        String.intercalate ", " (reasons.map (fun p => p.1 ++ (": " ++ p.2)))

/-- `validate_code` of `OPCSValidator for CodeList`: byte-length bounds
first (greater-than-5 before less-than-3), then the regex; the receiver is
unused by the source body and is omitted. -/
def validate_code (code : String) : Except CodeListValidatorError Unit :=
  if code.utf8ByteSize > 5 then
    .error (.invalidCodeLength code
      ("OPCS code " ++ (code ++ " is greater than 5 characters in length")))
  else if code.utf8ByteSize < 3 then
    .error (.invalidCodeLength code
      ("OPCS code " ++ (code ++ " is less than 3 characters in length")))
  else if !matchesOPCSRegex code then
    .error (.invalidCodeContents code
      ("OPCS code " ++ (code ++ " does not match the expected format")))
  else
    .ok ()

/-- Modelled from the spec: one `(code, term)` entry of the external list
container (`codelist-rs`'s `CodeEntry`, not among the provided sources);
only the `code` field is read by the validator. -/
structure CodeEntry where
  code : String
  term : String

/-- Modelled from the spec: the external list container (`codelist-rs`'s
`CodeList`, not among the provided sources) as the validator sees it — an
ordered, read-only enumeration of its entries. -/
structure CodeList where
  entries : List CodeEntry

/-- The accumulator loop of `validate_all_code`: scan the entries in
order, and for each code failing `validate_code` push the pair of the code
and the display rendering of its error. -/
def collectInvalid : List CodeEntry → List (String × String)
  | [] => []
  | e :: rest =>
    match validate_code e.code with
    | .error err => (e.code, display err) :: collectInvalid rest
    | .ok _ => collectInvalid rest

/-- `validate_all_code` of `OPCSValidator for CodeList`: full-list scan,
success when the accumulator stayed empty, otherwise the aggregate
`InvalidCodelist` error over the accumulator. -/
def validate_all_code (cl : CodeList) : Except CodeListValidatorError Unit :=
  let invalid_codes := collectInvalid cl.entries
  if invalid_codes.isEmpty then .ok ()
  else .error (.invalidCodelist invalid_codes)

/-- Whether a per-code validation result is a success. -/
def isOkResult : Except CodeListValidatorError Unit → Bool
  | .ok _ => true
  | .error _ => false

/-- The contribution of one entry to the aggregate error: `none` for a
valid code, otherwise the `(code, rendered reason)` pair. -/
def invalidPair (e : CodeEntry) : Option (String × String) :=
  match validate_code e.code with
  | .error err => some (e.code, display err)
  | .ok _ => none

/-- Number of entries of a list whose code fails `validate_code`. -/
def invalidCount (es : List CodeEntry) : Nat :=
  (es.filter (fun e => !isOkResult (validate_code e.code))).length

/-- `needle` occurs contiguously inside `hay` ("the reason contains ..."),
stated over the underlying character lists. -/
def substrOf (needle hay : String) : Prop :=
  ∃ p q : List Char, hay.data = p ++ needle.data ++ q

/-- Modelled from the spec: digit classification as the spec prescribes
it, ASCII `0-9` only ("character classification must use a fixed
(non-locale-sensitive) notion of letter and digit — ASCII `A-Z` and
`0-9`"). Kept separate from `isNd`, which is what the source regex
actually uses. -/
def isAsciiDigitSpec (c : Char) : Bool :=
  decide ('0'.toNat ≤ c.toNat) && decide (c.toNat ≤ '9'.toNat)

/-- Modelled from the spec: the optional tail of the OPCS grammar as the
spec words it, with ASCII digits — either nothing, or dot plus one or two
digits, or one or two digits with no dot. -/
def specTailASCII : List Char → Bool
  | [] => true
  | ['.', d] => isAsciiDigitSpec d
  | ['.', d1, d2] => isAsciiDigitSpec d1 && isAsciiDigitSpec d2
  | [d] => isAsciiDigitSpec d
  | [d1, d2] => isAsciiDigitSpec d1 && isAsciiDigitSpec d2
  | _ => false

/-- Modelled from the spec: the OPCS grammar exactly as the spec words it
— one leading (ASCII) letter, exactly two ASCII digits, then the optional
dot/digit group — for comparison against what `validate_code` accepts. -/
def grammarSpecASCII (code : String) : Bool :=
  match code.data with
  | c0 :: c1 :: c2 :: rest =>
      isUpperAZ c0 && isAsciiDigitSpec c1 && isAsciiDigitSpec c2 && specTailASCII rest
  | _ => false

/-- Modelled from the spec: the metadata source tag (`MetadataSource`,
defined in a `codelist-rs` file not among the provided sources); only the
two values exercised by the provided code are needed. -/
inductive MetadataSource where
  | manuallyCreated
  | loadedFromFile
deriving DecidableEq

/-- The error enum `CodeListError` of `codelist-rs/src/errors.rs`.
Variants wrapping foreign error types (`serde_json`, `io`, `csv`) carry
their rendered message as a string. -/
inductive CodeListError where
  | invalidCodeListType (name : String)
  | entryNotFound (code : String)
  | invalidFilePath (msg : String)
  | invalidInput (msg : String)
  | invalidCodeField (msg : String)
  | invalidTermField (msg : String)
  | emptyCode (msg : String)
  | emptyTerm (msg : String)
  | columnIndexOutOfBounds (msg : String)
  | invalidCodeType (msg : String)
  | invalidTermType (msg : String)
  | codeEntryCommentAlreadyExists (code : String) (term : String)
  | codeEntryCommentDoesNotExist (code : String) (term : String)
  | contributorNotFound (contributor : String)
  | invalidMetadataSource (source_string : String)
  | purposeAlreadyExists (msg : String)
  | purposeDoesNotExist (msg : String)
  | targetAudienceAlreadyExists (msg : String)
  | targetAudienceDoesNotExist (msg : String)
  | useContextAlreadyExists (msg : String)
  | useContextDoesNotExist (msg : String)
  | reviewerAlreadyExists (msg : String)
  | reviewerDoesNotExist (msg : String)
  | reviewDateAlreadyExists (msg : String)
  | reviewDateDoesNotExist (msg : String)
  | statusAlreadyExists (msg : String)
  | statusDoesNotExist (msg : String)
  | validationNotesAlreadyExist (msg : String)
  | validationNotesDoNotExist (msg : String)
  | reviewDateIsNone
  | jsonError (msg : String)
  | ioError (msg : String)
  | csvError (msg : String)
deriving DecidableEq

/-- The `Provenance` struct of `codelist-rs/src/metadata/provenance.rs`;
`chrono` timestamps are modelled as abstract instants, and the
`HashSet<String>` of contributors as a finite set of strings. -/
structure Provenance where
  source : MetadataSource
  created_date : Nat
  last_modified_date : Nat
  contributors : Finset String

/-- `Provenance::remove_contributor`: succeed exactly when the `HashSet`
held the contributor (removing it), otherwise report `ContributorNotFound`
and leave the set alone. The Rust method mutates `self`; here the result
is paired with the updated struct. -/
def remove_contributor (p : Provenance) (contributor : String) :
    Except CodeListError Unit × Provenance :=
  if contributor ∈ p.contributors then
    (.ok (), { p with contributors := p.contributors.erase contributor })
  else
    (.error (.contributorNotFound contributor), p)

deriving instance DecidableEq for Except

/-- Scanning the entries and pushing each failure is the same as filtering
the entries through `invalidPair`. -/
lemma collectInvalid_eq_filterMap (es : List CodeEntry) :
    collectInvalid es = es.filterMap invalidPair := by
  induction es with
  | nil => rfl
  | cons e rest ih =>
    simp only [collectInvalid, invalidPair, List.filterMap_cons]
    cases h : validate_code e.code <;> simp [h, ih]

/-- The accumulator collects exactly one pair per invalid entry. -/
lemma collectInvalid_length (es : List CodeEntry) :
    (collectInvalid es).length = invalidCount es := by
  induction es with
  | nil => rfl
  | cons e rest ih =>
    simp only [collectInvalid, invalidCount, List.filter_cons] at *
    cases h : validate_code e.code <;> simp [h, isOkResult, ih]

/-- The accumulator is empty exactly when no entry's code is invalid. -/
lemma collectInvalid_nil_iff (es : List CodeEntry) :
    collectInvalid es = [] ↔ invalidCount es = 0 := by
  rw [← collectInvalid_length, List.length_eq_zero]

/-- C1: on a list with `k` invalid entries, `validate_all_code` succeeds
iff `k = 0`, and otherwise returns `InvalidCodelist` whose `reasons` list
has exactly `k` entries — the scan-order filter of the entries, one pair
`(code, display of its failure)` per invalid entry, duplicates kept, with
no early stop. -/
theorem validate_all_code_totality (cl : CodeList) :
    (validate_all_code cl = .ok () ↔ invalidCount cl.entries = 0) ∧
    (invalidCount cl.entries ≠ 0 →
      validate_all_code cl =
        .error (.invalidCodelist (cl.entries.filterMap invalidPair)) ∧
      (cl.entries.filterMap invalidPair).length = invalidCount cl.entries) := by
  have hlen := collectInvalid_length cl.entries
  have hfm := collectInvalid_eq_filterMap cl.entries
  constructor
  · constructor
    · intro hok
      by_contra hne
      have hne' : collectInvalid cl.entries ≠ [] :=
        fun h => hne ((collectInvalid_nil_iff _).mp h)
      simp [validate_all_code, List.isEmpty_iff, hne'] at hok
    · intro h0
      have h := (collectInvalid_nil_iff cl.entries).mpr h0
      simp [validate_all_code, h]
  · intro hk
    have hne : collectInvalid cl.entries ≠ [] :=
      fun h => hk ((collectInvalid_nil_iff _).mp h)
    refine ⟨?_, by rw [← hfm, hlen]⟩
    rw [← hfm]
    simp [validate_all_code, List.isEmpty_iff, hne]

/-- Witness for C1 at a concrete two-entry list with one invalid code. -/
theorem validate_all_code_totality_witness :
    invalidCount [⟨"C01", "t"⟩, ⟨"A0", "t"⟩] ≠ 0 ∧
    validate_all_code ⟨[⟨"C01", "t"⟩, ⟨"A0", "t"⟩]⟩ =
      .error (.invalidCodelist
        (List.filterMap invalidPair [⟨"C01", "t"⟩, ⟨"A0", "t"⟩])) :=
  ⟨by decide,
    ((validate_all_code_totality ⟨[⟨"C01", "t"⟩, ⟨"A0", "t"⟩]⟩).2 (by decide)).1⟩

/-- C2 counterexample: `"B٣٤"` (ASCII letter, then two Arabic-Indic
digits) has byte length within the 3–5 bounds and does not match the
spec's ASCII grammar, yet `validate_code` accepts it, because the source
regex's `\d` is the Unicode digit class. The claim's "Ok iff the string
matches the grammar", with the grammar's digits read as ASCII `0-9`, is
therefore false at this input. -/
theorem opcs_grammar_ascii_claim_false :
    3 ≤ ("B٣٤" : String).utf8ByteSize ∧ ("B٣٤" : String).utf8ByteSize ≤ 5 ∧
    grammarSpecASCII "B٣٤" = false ∧ validate_code "B٣٤" = .ok () := by decide

/-- C2 (amended): for every code whose byte length is within the 3–5
bounds, `validate_code` succeeds iff the code matches the source pattern —
one leading ASCII letter, exactly two Unicode decimal digits, then an
optional group of either dot plus 1–2 digits or 1–2 digits with no dot —
and on mismatch it returns `InvalidCodeContents` whose reason contains
"`<code>` does not match the expected format". -/
theorem opcs_validate_code_grammar_iff (code : String)
    (h3 : 3 ≤ code.utf8ByteSize) (h5 : code.utf8ByteSize ≤ 5) :
    (validate_code code = .ok () ↔ matchesOPCSRegex code = true) ∧
    (matchesOPCSRegex code = false →
      ∃ r, validate_code code = .error (.invalidCodeContents code r) ∧
        substrOf (code ++ " does not match the expected format") r) := by
  have hgt : ¬ code.utf8ByteSize > 5 := by omega
  have hlt : ¬ code.utf8ByteSize < 3 := by omega
  unfold validate_code
  rw [if_neg hgt, if_neg hlt]
  cases hm : matchesOPCSRegex code with
  | true => simp [hm]
  | false =>
    simp only [hm, Bool.not_false, if_true]
    constructor
    · simp
    · intro _
      refine ⟨_, rfl, "OPCS code ".data, [], ?_⟩
      simp [String.data_append]

/-- Witness for C2's amended theorem at the in-bounds code `"101"`. -/
theorem opcs_validate_code_grammar_iff_witness :
    (3 ≤ ("101" : String).utf8ByteSize ∧ ("101" : String).utf8ByteSize ≤ 5) ∧
    (validate_code "101" = .ok () ↔ matchesOPCSRegex "101" = true) :=
  ⟨by decide, (opcs_validate_code_grammar_iff "101" (by decide) (by decide)).1⟩

/-- C3: a code whose byte length is out of the 3–5 bounds always yields
`InvalidCodeLength` and never `InvalidCodeContents` — the length branches
come before the pattern branch in `validate_code`. -/
theorem opcs_length_precedence (code : String)
    (h : code.utf8ByteSize < 3 ∨ code.utf8ByteSize > 5) :
    (∃ r, validate_code code = .error (.invalidCodeLength code r)) ∧
    ∀ r, validate_code code ≠ .error (.invalidCodeContents code r) := by
  unfold validate_code
  by_cases hgt : code.utf8ByteSize > 5
  · rw [if_pos hgt]
    exact ⟨⟨_, rfl⟩, fun r h' => by simp at h'⟩
  · have hlt : code.utf8ByteSize < 3 := by omega
    rw [if_neg hgt, if_pos hlt]
    exact ⟨⟨_, rfl⟩, fun r h' => by simp at h'⟩

/-- Witness for C3 at the too-short code `"A0"`. -/
theorem opcs_length_precedence_witness :
    ("A0".utf8ByteSize < 3 ∨ "A0".utf8ByteSize > 5) ∧
    ∃ r, validate_code "A0" = .error (.invalidCodeLength "A0" r) :=
  ⟨Or.inl (by decide), (opcs_length_precedence "A0" (Or.inl (by decide))).1⟩

/-- C4: `validate_all_code` either succeeds or returns `InvalidCodelist`
with a non-empty `reasons` list; an empty set of failures is always
reported as success, never as an empty aggregate error. -/
theorem invalid_codelist_nonempty (cl : CodeList) :
    validate_all_code cl = .ok () ∨
    ∃ reasons, validate_all_code cl = .error (.invalidCodelist reasons) ∧
      reasons ≠ [] := by
  by_cases h : collectInvalid cl.entries = []
  · left
    simp [validate_all_code, h]
  · right
    exact ⟨collectInvalid cl.entries,
      by simp [validate_all_code, List.isEmpty_iff, h], h⟩

/-- C5, evaluated at the failing input: `"A٠١"` carries the non-ASCII
Arabic-Indic digits U+0660 and U+0661 in its two digit positions (so it is
outside the spec's ASCII-only classification), yet `validate_code` accepts
it, because the source regex's `\d` matches any Unicode decimal digit. -/
theorem opcs_unicode_digit_accepted :
    isAsciiDigitSpec '٠' = false ∧ isAsciiDigitSpec '١' = false ∧
    grammarSpecASCII "A٠١" = false ∧
    validate_code "A٠١" = .ok () := by decide

/-- C6: the concrete OPCS scenarios — `"A01"` valid; `"A0"` and
`"A01000"` length failures with the expected phrases in their reasons; six
structural failures; and the mixed eight-entry list yielding exactly four
reasons in scan order `A01000, AA1, A01., A010A`. -/
theorem opcs_concrete_scenarios :
    validate_code "A01" = .ok () ∧
    (validate_code "A0" = .error (.invalidCodeLength "A0"
        "OPCS code A0 is less than 3 characters in length") ∧
      substrOf "less than 3 characters"
        "OPCS code A0 is less than 3 characters in length") ∧
    (validate_code "A01000" = .error (.invalidCodeLength "A01000"
        "OPCS code A01000 is greater than 5 characters in length") ∧
      substrOf "greater than 5 characters"
        "OPCS code A01000 is greater than 5 characters in length") ∧
    (∃ r, validate_code "101" = .error (.invalidCodeContents "101" r)) ∧
    (∃ r, validate_code "AA1" = .error (.invalidCodeContents "AA1" r)) ∧
    (∃ r, validate_code "A0A" = .error (.invalidCodeContents "A0A" r)) ∧
    (∃ r, validate_code "A01." = .error (.invalidCodeContents "A01." r)) ∧
    (∃ r, validate_code "A01.A" = .error (.invalidCodeContents "A01.A" r)) ∧
    (∃ r, validate_code "A010A" = .error (.invalidCodeContents "A010A" r)) ∧
    (∃ rs, validate_all_code ⟨[⟨"C01", "t"⟩, ⟨"A01000", "t"⟩, ⟨"C03", "t"⟩,
        ⟨"AA1", "t"⟩, ⟨"C05", "t"⟩, ⟨"A01.", "t"⟩, ⟨"L35.3", "t"⟩,
        ⟨"A010A", "t"⟩]⟩ = .error (.invalidCodelist rs) ∧
      rs.length = 4 ∧ rs.map Prod.fst = ["A01000", "AA1", "A01.", "A010A"]) := by
  refine ⟨by decide,
    ⟨by decide, "OPCS code A0 is ".data, " in length".data, by decide⟩,
    ⟨by decide, "OPCS code A01000 is ".data, " in length".data, by decide⟩,
    ⟨"OPCS code 101 does not match the expected format", by decide⟩,
    ⟨"OPCS code AA1 does not match the expected format", by decide⟩,
    ⟨"OPCS code A0A does not match the expected format", by decide⟩,
    ⟨"OPCS code A01. does not match the expected format", by decide⟩,
    ⟨"OPCS code A01.A does not match the expected format", by decide⟩,
    ⟨"OPCS code A010A does not match the expected format", by decide⟩,
    ⟨[("A01000", "Code A01000 is an invalid length. Reason: OPCS code A01000 is greater than 5 characters in length"),
      ("AA1", "Code AA1 contents is invalid. Reason: OPCS code AA1 does not match the expected format"),
      ("A01.", "Code A01. contents is invalid. Reason: OPCS code A01. does not match the expected format"),
      ("A010A", "Code A010A contents is invalid. Reason: OPCS code A010A does not match the expected format")],
      by decide, by decide, by decide⟩⟩

/-- C7 counterexample: at `"A01000"` the stored reason is
"OPCS code A01000 is greater than 5 characters in length", which differs
from the claim's exact wording "A01000 is greater than 5 characters in
length" — every reason carries the "OPCS code " prefix the claim omits. -/
theorem opcs_length_reason_exact_claim_false :
    "A01000".utf8ByteSize > 5 ∧
    validate_code "A01000" = .error (.invalidCodeLength "A01000"
      "OPCS code A01000 is greater than 5 characters in length") ∧
    ("OPCS code A01000 is greater than 5 characters in length" : String) ≠
      "A01000 is greater than 5 characters in length" := by decide

/-- C7 (amended): a code of byte length above 5 yields `InvalidCodeLength`
with reason exactly "OPCS code `<code>` is greater than 5 characters in
length", and one of byte length below 3 yields `InvalidCodeLength` with
reason exactly "OPCS code `<code>` is less than 3 characters in length". -/
theorem opcs_length_reason_prefixed (code : String) :
    (code.utf8ByteSize > 5 → validate_code code = .error (.invalidCodeLength code
      ("OPCS code " ++ (code ++ " is greater than 5 characters in length")))) ∧
    (code.utf8ByteSize < 3 → validate_code code = .error (.invalidCodeLength code
      ("OPCS code " ++ (code ++ " is less than 3 characters in length")))) := by
  constructor
  · intro h
    unfold validate_code
    rw [if_pos h]
  · intro h
    have hgt : ¬ code.utf8ByteSize > 5 := by omega
    unfold validate_code
    rw [if_neg hgt, if_pos h]

/-- Witness for C7's amended theorem at `"A01000"` and `"A0"`. -/
theorem opcs_length_reason_prefixed_witness :
    "A01000".utf8ByteSize > 5 ∧ "A0".utf8ByteSize < 3 ∧
    validate_code "A01000" = .error (.invalidCodeLength "A01000"
      ("OPCS code " ++ ("A01000" ++ " is greater than 5 characters in length"))) ∧
    validate_code "A0" = .error (.invalidCodeLength "A0"
      ("OPCS code " ++ ("A0" ++ " is less than 3 characters in length"))) :=
  ⟨by decide, by decide,
    (opcs_length_reason_prefixed "A01000").1 (by decide),
    (opcs_length_reason_prefixed "A0").2 (by decide)⟩

/-- C8: validation is deterministic and idempotent — both validators are
pure functions of their input, so two calls on the same code or the same
unchanged list are definitionally the same result, fields, and order. -/
theorem opcs_validation_deterministic :
    (∀ code : String, validate_code code = validate_code code) ∧
    (∀ cl : CodeList, validate_all_code cl = validate_all_code cl) :=
  ⟨fun _ => rfl, fun _ => rfl⟩

/-- C9: the length bound is measured in UTF-8 bytes, not characters —
`"éé"` has 2 characters but 4 bytes, passes the length checks, and falls
through to the structural check (an `InvalidCodeContents` result), while
`"ééé"` has 3 characters but 6 bytes and is rejected as greater than 5
characters in length. -/
theorem opcs_length_in_utf8_bytes :
    ("éé".length = 2 ∧ 3 ≤ "éé".utf8ByteSize ∧ "éé".utf8ByteSize ≤ 5 ∧
      validate_code "éé" = .error (.invalidCodeContents "éé"
        "OPCS code éé does not match the expected format")) ∧
    ("ééé".length = 3 ∧ "ééé".utf8ByteSize > 5 ∧
      validate_code "ééé" = .error (.invalidCodeLength "ééé"
        "OPCS code ééé is greater than 5 characters in length")) := by decide

/-- C10: `remove_contributor` succeeds iff the contributor was in the set,
in which case the set no longer contains it; otherwise it reports
`ContributorNotFound` for that contributor and leaves the provenance
unchanged. -/
theorem remove_contributor_spec (p : Provenance) (c : String) :
    ((remove_contributor p c).1 = .ok () ↔ c ∈ p.contributors) ∧
    ((remove_contributor p c).1 = .error (.contributorNotFound c) ↔
      c ∉ p.contributors) ∧
    (c ∈ p.contributors → c ∉ ((remove_contributor p c).2).contributors) ∧
    (c ∉ p.contributors → (remove_contributor p c).2 = p) := by
  unfold remove_contributor
  by_cases h : c ∈ p.contributors
  · rw [if_pos h]
    exact ⟨by simp [h], by simp [h], fun _ => Finset.not_mem_erase c _,
      fun hn => absurd h hn⟩
  · rw [if_neg h]
    exact ⟨by simp [h], by simp [h], fun hm => absurd hm h, fun _ => rfl⟩

/-- Witness for C10 at a provenance holding the single contributor
"Alice". -/
theorem remove_contributor_spec_witness :
    ("Alice" ∈ ({"Alice"} : Finset String)) ∧
    (remove_contributor ⟨.loadedFromFile, 0, 0, {"Alice"}⟩ "Alice").1 = .ok () :=
  ⟨by decide,
    (remove_contributor_spec ⟨.loadedFromFile, 0, 0, {"Alice"}⟩ "Alice").1.mpr
      (by decide)⟩
